import Mathlib

/-!
Verification of the `piri` window tracker (`src/main.rs`).

The program keeps `pip_window : Option<u64>` — the id of the tracked
Picture-in-Picture window — seeds it from a window snapshot, and updates it
while consuming a niri event stream, issuing at most one
`MoveWindowToWorkspace` command per `WorkspaceActivated` event.

The shallow embedding below models only what the program reads:

* window ids and workspace ids are `Nat` (u64 values used only for equality
  and as opaque handles, never arithmetically);
* `Window` carries the three fields the program inspects (`id`, `title`,
  `app_id`);
* the two compiled regexes are modelled by their exact matching semantics:
  `^Picture-in-Picture$` holds of a string iff it equals
  `"Picture-in-Picture"`, and `firefox$` holds iff the string ends with
  `"firefox"`;
* the fallible IPC calls are modelled with `Except`: an `Except.error`
  at the transport layer corresponds to an `io::Error` (which the `?`
  operator in `main` propagates), while a received `Reply` is itself
  `Except String Response` mirroring niri's `Reply = Result<Response, String>`;
* the event stream is a list of successfully read events; the end of the
  list models end-of-stream (or a read error), which exits the loop normally.
-/

/-- The fields of `niri_ipc::Window` that the program reads. -/
structure Window where
  id : Nat
  title : Option String
  app_id : Option String
deriving DecidableEq

/-- Matching semantics of `TITLE_REGEX = ^Picture-in-Picture$`:
`Regex::is_match` holds iff the whole string is exactly `Picture-in-Picture`
(both ends anchored, no other metacharacters). -/
def titleRegexMatch (s : String) : Bool :=
  s == "Picture-in-Picture"

/-- Matching semantics of `APP_ID_REGEX = firefox$`:
`Regex::is_match` holds iff the string ends with `firefox`
(suffix test on the character sequence). -/
def appIdRegexMatch (s : String) : Bool :=
  "firefox".data.isSuffixOf s.data

/-- Translation of `fn window_matches(window: &Window) -> bool`. -/
def window_matches (window : Window) : Bool :=
  let app_id_matches :=
    match window.app_id with
    | some app_id => appIdRegexMatch app_id
    | none => true
  match window.title with
  | some title => titleRegexMatch title && app_id_matches
  | none => false

/-- The niri events the program consumes.  `Other tag` stands for every
remaining `niri_ipc::Event` variant, all of which fall into the `_ => ()`
arm of the match in `main`. -/
inductive Event where
  | WorkspaceActivated (id : Nat) (focused : Bool)
  | WindowOpenedOrChanged (window : Window)
  | WindowClosed (id : Nat)
  | Other (tag : Nat)
deriving DecidableEq

/-- The payload of `Action::MoveWindowToWorkspace` as constructed in `main`:
`window_id: Some(window)`, `reference: WorkspaceReferenceArg::Id(id)`,
`focus: false`. -/
structure MoveCommand where
  window_id : Option Nat
  reference : Nat
  focus : Bool
deriving DecidableEq

/-- The `niri_ipc::Response` variants the program distinguishes; `OtherResponse`
stands for every remaining variant. -/
inductive Response where
  | Handled
  | Windows (windows : List Window)
  | OtherResponse (tag : Nat)
deriving DecidableEq

/-- A received reply, mirroring `niri_ipc::Reply = Result<Response, String>`. -/
abbrev Reply := Except String Response

/-- Outcome of one `requests_socket.send` call: either a transport-level
`io::Error` (propagated by `?`) or a received `Reply`. -/
inductive SendOutcome where
  | transportError
  | reply (r : Reply)

/-- Seeding loop in `main`: scan the snapshot in order, track the first
window satisfying `window_matches`, `break` afterwards. -/
def seed : List Window → Option Nat
  | [] => none
  | window :: rest =>
    if window_matches window then some window.id else seed rest

/-- One iteration of the event loop in `main`.  `send` gives the outcome of
the (at most one) `requests_socket.send` this iteration performs.  Returns
the new `pip_window` and the list of move commands issued, or
`Except.error ()` when the `?` on the send propagates an `io::Error` out of
`main`. -/
def step (send : MoveCommand → SendOutcome) (pip_window : Option Nat) :
    Event → Except Unit (Option Nat × List MoveCommand)
  | .WorkspaceActivated id focused =>
    if focused then
      match pip_window with
      | some window =>
        let cmd : MoveCommand := ⟨some window, id, false⟩
        match send cmd with
        | .transportError => .error ()
        | .reply _ => .ok (pip_window, [cmd])
      | none => .ok (pip_window, [])
    else
      .ok (pip_window, [])
  | .WindowOpenedOrChanged window =>
    if window_matches window ∧ pip_window ≠ some window.id then
      .ok (some window.id, [])
    else
      .ok (pip_window, [])
  | .WindowClosed id =>
    if pip_window = some id then
      .ok (none, [])
    else
      .ok (pip_window, [])
  | .Other _ => .ok (pip_window, [])

/-- The `while let Ok(event) = read_event()` loop over a list of delivered
events, threading `pip_window` and collecting issued commands; an
`Except.error` from `step` aborts the loop (and `main`) as `?` does. -/
def processEvents (send : MoveCommand → SendOutcome) (pip_window : Option Nat) :
    List Event → Except Unit (Option Nat × List MoveCommand)
  | [] => .ok (pip_window, [])
  | event :: rest =>
    match step send pip_window event with
    | .error e => .error e
    | .ok (pip', cmds) =>
      match processEvents send pip' rest with
      | .error e => .error e
      | .ok (pipFinal, cmdsRest) => .ok (pipFinal, cmds ++ cmdsRest)

/-- Observable outcome of a successful run of `main` past the CLI phase. -/
structure RunResult where
  /-- whether `Request::Windows` was sent (the snapshot fetch). -/
  snapshotRequested : Bool
  /-- final value of `pip_window`. -/
  finalState : Option Nat
  /-- all move commands issued, in order. -/
  commands : List MoveCommand
deriving DecidableEq

/-- `main` after CLI parsing and socket connection, parameterised by the
outcomes of the IPC operations: the reply to `Request::EventStream`, the
reply to `Request::Windows`, the delivered events, and the outcome of each
command send.  `Except.error ()` models `main` returning `Err` (a propagated
`io::Error`). -/
def runMain (subscribeResult : Except Unit Reply) (windowsResult : Except Unit Reply)
    (events : List Event) (send : MoveCommand → SendOutcome) :
    Except Unit RunResult :=
  match subscribeResult with
  | .error e => .error e
  | .ok subscribeReply =>
    match subscribeReply with
    | .ok .Handled =>
      match windowsResult with
      | .error e => .error e
      | .ok windowsReply =>
        let pip0 : Option Nat :=
          match windowsReply with
          | .ok (.Windows windows) => seed windows
          | _ => none
        match processEvents send pip0 events with
        | .error e => .error e
        | .ok (pipFinal, cmds) => .ok ⟨true, pipFinal, cmds⟩
    | _ => .ok ⟨false, none, []⟩

/-- C3: `window_matches` holds of a descriptor iff it has a title, the title
satisfies the title rule, and either it has no application id or the
application id satisfies the app-id rule (absence of the app id is trivially
accepted). -/
theorem window_matches_iff (w : Window) :
    window_matches w = true ↔
      (∃ t, w.title = some t ∧ titleRegexMatch t = true ∧
        (w.app_id = none ∨ ∃ a, w.app_id = some a ∧ appIdRegexMatch a = true)) := by
  obtain ⟨i, title, app_id⟩ := w
  cases title <;> cases app_id <;> simp [window_matches]

/-- C3 witness: a window titled `Picture-in-Picture` with no app id matches. -/
theorem window_matches_iff_witness :
    window_matches ⟨2, some "Picture-in-Picture", none⟩ = true :=
  (window_matches_iff ⟨2, some "Picture-in-Picture", none⟩).mpr
    ⟨"Picture-in-Picture", rfl, rfl, Or.inl rfl⟩

/-- C4: a descriptor with no title never matches, whatever its app id. -/
theorem no_title_no_match (w : Window) (h : w.title = none) :
    window_matches w = false := by
  obtain ⟨i, title, app_id⟩ := w
  cases title with
  | none => cases app_id <;> rfl
  | some t => exact absurd h (by simp)

/-- C4 witness: a titleless window with a matching app id does not match. -/
theorem no_title_no_match_witness :
    window_matches ⟨1, none, some "firefox"⟩ = false :=
  no_title_no_match ⟨1, none, some "firefox"⟩ rfl

/-- C1: on `WorkspaceActivated`, if `focused` is true and a window is
tracked (and the transport delivers the command), exactly one command is
issued — move the tracked window to the event's workspace with
`focus = false` — and the state is unchanged; if `focused` is false or no
window is tracked, no command is issued and the state is unchanged. -/
theorem workspace_activated_spec (send : MoveCommand → SendOutcome)
    (pip : Option Nat) (wsid : Nat) (focused : Bool) :
    (∀ w r, pip = some w → focused = true →
      send ⟨some w, wsid, false⟩ = .reply r →
      step send pip (.WorkspaceActivated wsid focused) =
        .ok (pip, [⟨some w, wsid, false⟩])) ∧
    (focused = false ∨ pip = none →
      step send pip (.WorkspaceActivated wsid focused) = .ok (pip, [])) := by
  constructor
  · intro w r hpip hfoc hsend
    subst hpip; subst hfoc
    simp [step, hsend]
  · rintro (hfoc | hpip)
    · subst hfoc; rfl
    · subst hpip; cases focused <;> rfl

/-- C1 witness: with the tracker at window 5 and a delivered reply,
activating workspace 7 focused issues exactly the move `(5, 7, focus=false)`;
unfocused activation issues nothing. -/
theorem workspace_activated_spec_witness :
    step (fun _ => SendOutcome.reply (Except.ok Response.Handled)) (some 5)
        (.WorkspaceActivated 7 true) = .ok (some 5, [⟨some 5, 7, false⟩]) ∧
    step (fun _ => SendOutcome.reply (Except.ok Response.Handled)) (some 5)
        (.WorkspaceActivated 7 false) = .ok (some 5, []) :=
  ⟨(workspace_activated_spec _ (some 5) 7 true).1 5 (Except.ok Response.Handled)
      rfl rfl rfl,
    (workspace_activated_spec _ (some 5) 7 false).2 (Or.inl rfl)⟩

/-- C2: on `WindowOpenedOrChanged`, the tracker moves to the descriptor's id
exactly when the descriptor matches and that id is not already tracked; in
every other case — in particular for any non-matching descriptor, even when
the tracked window itself stopped matching — the state is unchanged.  No
command is issued either way. -/
theorem window_opened_spec (send : MoveCommand → SendOutcome)
    (pip : Option Nat) (w : Window) :
    (window_matches w = true ∧ pip ≠ some w.id →
      step send pip (.WindowOpenedOrChanged w) = .ok (some w.id, [])) ∧
    (¬(window_matches w = true ∧ pip ≠ some w.id) →
      step send pip (.WindowOpenedOrChanged w) = .ok (pip, [])) := by
  constructor
  · intro h
    simp only [step, if_pos h]
  · intro h
    simp only [step, if_neg h]

/-- C2 witness: an idle tracker adopts a matching window; a tracker at
window 5 is not disturbed by a non-matching descriptor for window 6. -/
theorem window_opened_spec_witness :
    step (fun _ => SendOutcome.transportError) none
        (.WindowOpenedOrChanged ⟨2, some "Picture-in-Picture", some "firefox"⟩) =
      .ok (some 2, []) ∧
    step (fun _ => SendOutcome.transportError) (some 5)
        (.WindowOpenedOrChanged ⟨6, some "editor", some "code"⟩) =
      .ok (some 5, []) :=
  ⟨(window_opened_spec _ none ⟨2, some "Picture-in-Picture", some "firefox"⟩).1
      ⟨by decide, by decide⟩,
    (window_opened_spec _ (some 5) ⟨6, some "editor", some "code"⟩).2
      (by decide)⟩

/-- C6: `WindowClosed(id)` clears the tracker exactly when `id` is the
tracked window; for any other id, and when idle, the event is a no-op.  No
command is issued. -/
theorem window_closed_spec (send : MoveCommand → SendOutcome)
    (pip : Option Nat) (id : Nat) :
    (pip = some id → step send pip (.WindowClosed id) = .ok (none, [])) ∧
    (pip ≠ some id → step send pip (.WindowClosed id) = .ok (pip, [])) := by
  constructor
  · intro h
    simp only [step, if_pos h]
  · intro h
    simp only [step, if_neg h]

/-- C6 witness: closing the tracked window 5 clears the tracker; closing
window 4 leaves it at 5. -/
theorem window_closed_spec_witness :
    step (fun _ => SendOutcome.transportError) (some 5) (.WindowClosed 5) =
      .ok (none, []) ∧
    step (fun _ => SendOutcome.transportError) (some 5) (.WindowClosed 4) =
      .ok (some 5, []) :=
  ⟨(window_closed_spec _ (some 5) 5).1 rfl,
    (window_closed_spec _ (some 5) 4).2 (by decide)⟩

/-- C9: every event other than `WorkspaceActivated`, `WindowOpenedOrChanged`
and `WindowClosed` leaves the tracker unchanged and issues no command. -/
theorem other_event_noop (send : MoveCommand → SendOutcome)
    (pip : Option Nat) (tag : Nat) :
    step send pip (.Other tag) = .ok (pip, []) := rfl

/-- Seeding skips a non-matching head. -/
lemma seed_cons_neg {w : Window} (h : window_matches w = false)
    (rest : List Window) : seed (w :: rest) = seed rest := by
  simp [seed, h]

/-- Seeding over an all-non-matching prefix reduces to the tail. -/
lemma seed_append_neg {pre : List Window}
    (h : ∀ x ∈ pre, window_matches x = false) (rest : List Window) :
    seed (pre ++ rest) = seed rest := by
  induction pre with
  | nil => rfl
  | cons x pre ih =>
    rw [List.cons_append, seed_cons_neg (h x (by simp))]
    exact ih fun y hy => h y (by simp [hy])

/-- C5: seeding tracks the first descriptor, in sequence order, that
satisfies the matcher (later matches are ignored); if none matches the
tracker stays idle. -/
theorem seed_first_match (windows : List Window) :
    (∀ pre w post, windows = pre ++ w :: post →
      (∀ x ∈ pre, window_matches x = false) → window_matches w = true →
      seed windows = some w.id) ∧
    ((∀ x ∈ windows, window_matches x = false) → seed windows = none) := by
  constructor
  · intro pre w post hsplit hpre hw
    subst hsplit
    rw [seed_append_neg hpre]
    simp [seed, hw]
  · intro h
    induction windows with
    | nil => rfl
    | cons x rest ih =>
      rw [seed_cons_neg (h x (by simp))]
      exact ih fun y hy => h y (by simp [hy])

/-- C5 witness: with two matching descriptors (ids 2 and 3) after a
non-matching one, seeding tracks the first match, id 2. -/
theorem seed_first_match_witness :
    seed [⟨1, none, none⟩, ⟨2, some "Picture-in-Picture", some "firefox"⟩,
      ⟨3, some "Picture-in-Picture", none⟩] = some 2 :=
  (seed_first_match _).1 [⟨1, none, none⟩]
    ⟨2, some "Picture-in-Picture", some "firefox"⟩
    [⟨3, some "Picture-in-Picture", none⟩] rfl (by decide) (by decide)

/-- C7 counterexample: a transport error on the move command DOES terminate
the event loop — and the whole run — with an error: the `?` on
`requests_socket.send` propagates the `io::Error` out of `main`, so the
subsequent `WindowClosed` event is never processed.  This contradicts the
claim that such a failure is never escalated into termination of the loop. -/
theorem move_transport_error_terminates :
    processEvents (fun _ => SendOutcome.transportError) (some 5)
      [.WorkspaceActivated 7 true, .WindowClosed 5] = .error () ∧
    runMain (.ok (.ok .Handled))
      (.ok (.ok (.Windows [⟨5, some "Picture-in-Picture", some "firefox"⟩])))
      [.WorkspaceActivated 7 true, .WindowClosed 5]
      (fun _ => SendOutcome.transportError) = .error () := by
  exact ⟨rfl, rfl⟩

/-- C7 amended: if the move command is delivered but fails with a
compositor-level error reply, the core does not retry (exactly one send),
does not roll back its state (the tracked id remains set), and the loop
continues; a transport-level error on the send, by contrast, propagates and
terminates the loop (and `main`) with an error. -/
theorem move_failure_amended (w wsid : Nat) (msg : String) :
    step (fun _ => SendOutcome.reply (.error msg)) (some w)
      (.WorkspaceActivated wsid true) = .ok (some w, [⟨some w, wsid, false⟩]) ∧
    step (fun _ => SendOutcome.transportError) (some w)
      (.WorkspaceActivated wsid true) = .error () := by
  exact ⟨rfl, rfl⟩

/-- C8: when the reply to the `EventStream` subscription is anything other
than `Handled` — a compositor error reply or another response variant — the
run performs no tracking at all: the snapshot is never requested, no event
is processed, no command is issued, and `main` returns success. -/
theorem subscribe_reject_noop (reply : Reply)
    (h : reply ≠ Except.ok Response.Handled)
    (windowsResult : Except Unit Reply) (events : List Event)
    (send : MoveCommand → SendOutcome) :
    runMain (.ok reply) windowsResult events send = .ok ⟨false, none, []⟩ := by
  match reply with
  | .error msg => rfl
  | .ok .Handled => exact absurd rfl h
  | .ok (.Windows ws) => rfl
  | .ok (.OtherResponse tag) => rfl

/-- C8 witness: a compositor error reply to the subscription yields a clean
no-op run even with pending events and a failing transport. -/
theorem subscribe_reject_noop_witness :
    runMain (.ok (.error "unsupported")) (.ok (.ok (.Windows [])))
      [.WorkspaceActivated 7 true] (fun _ => SendOutcome.transportError) =
      .ok ⟨false, none, []⟩ :=
  subscribe_reject_noop (.error "unsupported") (by simp)
    (.ok (.ok (.Windows []))) [.WorkspaceActivated 7 true]
    (fun _ => SendOutcome.transportError)

/-- C10: when the snapshot request yields a received reply that is not a
`Windows` listing (a compositor error reply or an unexpected variant),
seeding is silently skipped: the event loop starts from the idle state and
runs normally. -/
theorem snapshot_reject_idle (windowsReply : Reply)
    (h : ∀ ws, windowsReply ≠ Except.ok (Response.Windows ws))
    (events : List Event) (send : MoveCommand → SendOutcome) :
    runMain (.ok (.ok .Handled)) (.ok windowsReply) events send =
      match processEvents send none events with
      | .error e => .error e
      | .ok (pipFinal, cmds) => .ok ⟨true, pipFinal, cmds⟩ := by
  match windowsReply with
  | .error msg => rfl
  | .ok .Handled => rfl
  | .ok (.Windows ws) => exact absurd rfl (h ws)
  | .ok (.OtherResponse tag) => rfl

/-- C10 witness: after a compositor error reply to the snapshot request, the
loop starts idle, so a matching opened window is adopted and then moved. -/
theorem snapshot_reject_idle_witness :
    runMain (.ok (.ok .Handled)) (.ok (.error "denied"))
      [.WindowOpenedOrChanged ⟨2, some "Picture-in-Picture", some "firefox"⟩,
        .WorkspaceActivated 7 true]
      (fun _ => SendOutcome.reply (.ok .Handled)) =
      .ok ⟨true, some 2, [⟨some 2, 7, false⟩]⟩ := by
  rw [snapshot_reject_idle (.error "denied")
    (fun ws h => Except.noConfusion h)
    [.WindowOpenedOrChanged ⟨2, some "Picture-in-Picture", some "firefox"⟩,
      .WorkspaceActivated 7 true]
    (fun _ => SendOutcome.reply (.ok .Handled))]
  rfl
